import Mathlib

/-
Shallow embedding of the iMAGE connection store and media card logic.

The Vue/Pinia store (stores/connection.ts) keeps its state in refs; here the
whole store is a record, and each store action is a pure state transformer.
Backend calls go through Tauri invoke, which is outside the frontend code, so
each action takes the invoke outcome as an explicit parameter: a resolved
value (Except.ok) or a thrown error, already stringified (Except.error).
The value persisted under a localStorage key is modelled as the config record
that was JSON-stringified into it (none when the key is absent).
-/

namespace Image

/-- Backend kinds of the connection store (StorageType in the source). -/
inductive StorageType
  | ec2
  | github
deriving DecidableEq

/-- Config for a remote-filesystem (EC2/SSH) connection, minus the literal
type tag, which the ConnectionConfig sum below carries. -/
structure Ec2ConnectionConfig where
  host : String
  username : String
  pemContent : String
  port : Nat
deriving DecidableEq

/-- Config for a repository-mirror (GitHub) connection. -/
structure GitHubConnectionConfig where
  repoUrl : String
  username : String
  sshKeyContent : String
  branch : String
  localPath : String
deriving DecidableEq

/-- The discriminated union ConnectionConfig of the source; the constructor
plays the role of the literal type field. -/
inductive ConnectionConfig
  | ec2 (c : Ec2ConnectionConfig)
  | github (c : GitHubConnectionConfig)
deriving DecidableEq

/-- The raw key material field of a config (pemContent for EC2, sshKeyContent
for GitHub). JSON.stringify of a config embeds this string verbatim, so a
persisted config carries exactly this key material. -/
def configKeyMaterial : ConnectionConfig → String
  | ConnectionConfig.ec2 c => c.pemContent
  | ConnectionConfig.github c => c.sshKeyContent

/-- FileInfo record of the source; optional fields become Option. -/
structure FileInfo where
  name : String
  path : String
  size : Nat
  isDir : Bool
  modified : Option Nat := none
  mimeType : Option String := none
  thumbnail : Option String := none
deriving DecidableEq

/-- Response shape of the connect_ec2 / connect_github backend commands. -/
structure ConnectResponse where
  success : Bool
  message : String
  storage_type : Option String := none
  root_path : Option String := none
deriving DecidableEq

/-- JavaScript String.prototype.startsWith, modelled over character lists so
that it evaluates by kernel reduction. -/
def jsStartsWith (s pre : String) : Bool :=
  pre.toList.isPrefixOf s.toList

/-- JavaScript `x || d` on an optional string: undefined and the empty string
are both falsy and fall through to the default. -/
def orFalsy (x : Option String) (d : String) : String :=
  match x with
  | none => d
  | some s => if s = "" then d else s

/-- State of useConnectionStore (current store, first document of the file):
every ref of the setup function, plus localStore for the value recorded under
the image-connection localStorage key. -/
structure StoreState where
  isConnected : Bool
  isConnecting : Bool
  error : Option String
  savedConfig : Option ConnectionConfig
  currentPath : String
  files : List FileInfo
  isLoadingFiles : Bool
  storageType : Option StorageType
  rootPath : String
  isMediaOnly : Bool
  localStore : Option ConnectionConfig
deriving DecidableEq

/-- Initial values of the store refs; localStorage key absent. -/
def initialState : StoreState where
  isConnected := false
  isConnecting := false
  error := none
  savedConfig := none
  currentPath := "/"
  files := []
  isLoadingFiles := false
  storageType := none
  rootPath := "/"
  isMediaOnly := false
  localStore := none

/-- filteredFiles computed: all files when the media-only toggle is off;
otherwise directories plus files whose mimeType (defaulted to the empty
string) starts with image/ or equals the bare string video. -/
def filteredFiles (s : StoreState) : List FileInfo :=
  if !s.isMediaOnly then s.files
  else
    s.files.filter (fun file =>
      if file.isDir then true
      else
        let mime := file.mimeType.getD ("")
        jsStartsWith mime ("image/") || mime == "video")

/-- albums computed: directories among the filtered files. -/
def albums (s : StoreState) : List FileInfo :=
  (filteredFiles s).filter (fun file => file.isDir)

/-- mediaFiles computed: non-directories among the filtered files. -/
def mediaFiles (s : StoreState) : List FileInfo :=
  (filteredFiles s).filter (fun file => !file.isDir)

/-- loadFiles(path): sets isLoadingFiles and currentPath, then issues the
list_files invoke on path; on resolve stores the listing in files, on throw
stores the message in error; finally clears isLoadingFiles. -/
def loadFiles (s : StoreState) (path : String)
    (listOutcome : Except String (List FileInfo)) : StoreState :=
  let s1 := { s with isLoadingFiles := true, currentPath := path }
  match listOutcome with
  | Except.ok result => { s1 with files := result, isLoadingFiles := false }
  | Except.error e => { s1 with error := some e, isLoadingFiles := false }

/-- connectEc2(config): sets isConnecting, clears error, issues connect_ec2.
On a successful response: marks connected, records config, storage type and
root (response root_path with JS-falsy fallback to /), writes the config
under the image-connection localStorage key, and loads the root listing.
On success=false or a thrown invoke only error is set. isConnecting is
cleared in finally on every path. Returns the boolean result plus state. -/
def connectEc2 (s : StoreState) (config : Ec2ConnectionConfig)
    (connectOutcome : Except String ConnectResponse)
    (listOutcome : Except String (List FileInfo)) : Bool × StoreState :=
  let s1 := { s with isConnecting := true, error := none }
  match connectOutcome with
  | Except.error e => (false, { s1 with error := some e, isConnecting := false })
  | Except.ok response =>
    if response.success then
      let root := orFalsy response.root_path ("/")
      let s2 := { s1 with
        isConnected := true
        savedConfig := some (ConnectionConfig.ec2 config)
        storageType := some StorageType.ec2
        rootPath := root
        localStore := some (ConnectionConfig.ec2 config) }
      let s3 := loadFiles s2 root listOutcome
      (true, { s3 with isConnecting := false })
    else
      (false, { s1 with error := some response.message, isConnecting := false })

/-- connectGithub(config): same shape as connectEc2 with the github storage
type and the connect_github command; persists under the same localStorage
key. -/
def connectGithub (s : StoreState) (config : GitHubConnectionConfig)
    (connectOutcome : Except String ConnectResponse)
    (listOutcome : Except String (List FileInfo)) : Bool × StoreState :=
  let s1 := { s with isConnecting := true, error := none }
  match connectOutcome with
  | Except.error e => (false, { s1 with error := some e, isConnecting := false })
  | Except.ok response =>
    if response.success then
      let root := orFalsy response.root_path ("/")
      let s2 := { s1 with
        isConnected := true
        savedConfig := some (ConnectionConfig.github config)
        storageType := some StorageType.github
        rootPath := root
        localStore := some (ConnectionConfig.github config) }
      let s3 := loadFiles s2 root listOutcome
      (true, { s3 with isConnecting := false })
    else
      (false, { s1 with error := some response.message, isConnecting := false })

/-- connect(config): dispatch on the config tag. The union is exhaustive, so
the unknown-storage-type fallback of the source is unreachable here. -/
def connect (s : StoreState) (config : ConnectionConfig)
    (connectOutcome : Except String ConnectResponse)
    (listOutcome : Except String (List FileInfo)) : Bool × StoreState :=
  match config with
  | ConnectionConfig.ec2 c => connectEc2 s c connectOutcome listOutcome
  | ConnectionConfig.github c => connectGithub s c connectOutcome listOutcome

/-- disconnect(): issues the disconnect invoke inside try/catch. Only when
the invoke resolves does it clear isConnected, files, currentPath,
storageType and remove the localStorage entry; a thrown invoke is merely
logged via console.error and every ref keeps its value. The function itself
never throws to the caller. -/
def disconnect (s : StoreState) (invokeOutcome : Except String Unit) : StoreState :=
  match invokeOutcome with
  | Except.ok _ =>
      { s with
        isConnected := false
        files := []
        currentPath := "/"
        storageType := none
        localStore := none }
  | Except.error _ => s

/-- Config record of the legacy store (second document of the file): no type
tag, EC2 fields only. -/
structure LegacyConnectionConfig where
  host : String
  username : String
  pemContent : String
  port : Nat
deriving DecidableEq

/-- Response shape of connect_ec2 as the legacy store declares it. -/
structure LegacyConnectResponse where
  success : Bool
  message : String
deriving DecidableEq

/-- State of the legacy useConnectionStore: no storageType/rootPath refs,
currentPath starts at /home, and the localStorage key is ec2-connection. -/
structure LegacyStoreState where
  isConnected : Bool
  isConnecting : Bool
  error : Option String
  savedConfig : Option LegacyConnectionConfig
  currentPath : String
  files : List FileInfo
  isLoadingFiles : Bool
  isMediaOnly : Bool
  localStore : Option LegacyConnectionConfig
deriving DecidableEq

/-- Initial values of the legacy store refs. -/
def legacyInitialState : LegacyStoreState where
  isConnected := false
  isConnecting := false
  error := none
  savedConfig := none
  currentPath := "/home"
  files := []
  isLoadingFiles := false
  isMediaOnly := false
  localStore := none

/-- loadFiles of the legacy store; same body as the current store's. -/
def legacyLoadFiles (s : LegacyStoreState) (path : String)
    (listOutcome : Except String (List FileInfo)) : LegacyStoreState :=
  let s1 := { s with isLoadingFiles := true, currentPath := path }
  match listOutcome with
  | Except.ok result => { s1 with files := result, isLoadingFiles := false }
  | Except.error e => { s1 with error := some e, isLoadingFiles := false }

/-- connect(config) of the legacy store: on a successful response it marks
connected, saves the config (ref and ec2-connection localStorage key) and
loads files from /root when the username is root, /home/username otherwise;
the response carries no root path at all. -/
def legacyConnect (s : LegacyStoreState) (config : LegacyConnectionConfig)
    (connectOutcome : Except String LegacyConnectResponse)
    (listOutcome : Except String (List FileInfo)) : Bool × LegacyStoreState :=
  let s1 := { s with isConnecting := true, error := none }
  match connectOutcome with
  | Except.error e => (false, { s1 with error := some e, isConnecting := false })
  | Except.ok response =>
    if response.success then
      let s2 := { s1 with
        isConnected := true
        savedConfig := some config
        localStore := some config }
      let s3 := legacyLoadFiles s2
        (if config.username = "root" then "/root" else "/home/" ++ config.username)
        listOutcome
      (true, { s3 with isConnecting := false })
    else
      (false, { s1 with error := some response.message, isConnecting := false })

/-- isImage computed of the lazy-loading media card: mimeType?.startsWith
on image/ with undefined falsy. -/
def isImage (file : FileInfo) : Bool :=
  (file.mimeType.map (fun m => jsStartsWith m ("image/"))).getD false

/-- isVideo computed of the lazy-loading media card: mimeType?.startsWith
on video/ with undefined falsy. -/
def isVideo (file : FileInfo) : Bool :=
  (file.mimeType.map (fun m => jsStartsWith m ("video/"))).getD false

/-- Per-card reactive state of the lazy-loading media card. -/
structure CardState where
  thumbnailLoaded : Bool
  thumbnailUrl : String
  hasBeenVisible : Bool
deriving DecidableEq

/-- Initial per-card refs. -/
def initialCardState : CardState where
  thumbnailLoaded := false
  thumbnailUrl := ""
  hasBeenVisible := false

/-- loadThumbnail(): returns immediately when the file is not an image or a
thumbnail is already loaded; otherwise issues the get_file_thumbnail invoke,
storing the data URL and setting thumbnailLoaded on resolve, resetting
thumbnailLoaded on throw. The boolean of the pair records whether the
backend invoke was issued at all. -/
def loadThumbnail (file : FileInfo) (c : CardState)
    (thumbOutcome : Except String String) : CardState × Bool :=
  if !(isImage file) || c.thumbnailLoaded then (c, false)
  else
    match thumbOutcome with
    | Except.ok dataUrl =>
        ({ c with thumbnailUrl := dataUrl, thumbnailLoaded := true }, true)
    | Except.error _ => ({ c with thumbnailLoaded := false }, true)

/-- Full-rollback postcondition for a failed connect from pre-state s: the
call returned false, the session fields and the persisted entry are exactly
the pre-state's, the connection flag is down, the connecting flag was
cleared by finally, and the error field holds the failure message. -/
def failureRollback (s : StoreState) (out : Bool × StoreState) (msg : String) : Prop :=
  out.1 = false ∧
  out.2.isConnected = false ∧
  out.2.savedConfig = s.savedConfig ∧
  out.2.storageType = s.storageType ∧
  out.2.rootPath = s.rootPath ∧
  out.2.files = s.files ∧
  out.2.currentPath = s.currentPath ∧
  out.2.localStore = s.localStore ∧
  out.2.isConnecting = false ∧
  out.2.error = some msg

/-- Established-session postcondition for a successful connect: the call
returned true, the store is connected with the requested kind, the supplied
config and the backend root; currentPath equals that root because the first
list was issued against it. -/
def successEstablish (config : ConnectionConfig) (st : StorageType)
    (root : String) (out : Bool × StoreState) : Prop :=
  out.1 = true ∧
  out.2.isConnected = true ∧
  out.2.storageType = some st ∧
  out.2.savedConfig = some config ∧
  out.2.rootPath = root ∧
  out.2.currentPath = root

/-- Concrete EC2 config whose pemContent is recognisable raw key material. -/
def sampleEc2Config : Ec2ConnectionConfig where
  host := "192.168.1.1"
  username := "ubuntu"
  pemContent := "RAW-PEM-KEY-MATERIAL"
  port := 22

/-- Concrete GitHub config with recognisable raw key material. -/
def sampleGithubConfig : GitHubConnectionConfig where
  repoUrl := "git@github.com:test/repo.git"
  username := "git"
  sshKeyContent := "RAW-SSH-KEY-MATERIAL"
  branch := "main"
  localPath := "/tmp/repo"

/-- Successful backend response reporting a root path. -/
def sampleOkResponse : ConnectResponse where
  success := true
  message := "Connected"
  storage_type := some ("ec2")
  root_path := some ("/home/ubuntu")

/-- Successful backend response that reports no root path. -/
def sampleNoRootResponse : ConnectResponse where
  success := true
  message := "Connected"
  storage_type := some ("ec2")
  root_path := none

/-- Failed backend response. -/
def failResponse : ConnectResponse where
  success := false
  message := "Connection failed"

/-- A JPEG image entry. -/
def sampleFile : FileInfo where
  name := "a.jpg"
  path := "/home/ubuntu/a.jpg"
  size := 100
  isDir := false
  mimeType := some ("image/jpeg")

/-- A file with a full video MIME type. -/
def mp4File : FileInfo where
  name := "clip.mp4"
  path := "/clip.mp4"
  size := 5
  isDir := false
  mimeType := some ("video/mp4")

/-- A file whose mimeType is the bare marker video. -/
def bareVideoFile : FileInfo where
  name := "v"
  path := "/v"
  size := 1
  isDir := false
  mimeType := some ("video")

/-- A directory entry. -/
def dirEntry : FileInfo where
  name := "Pictures"
  path := "/Pictures"
  size := 0
  isDir := true

/-- A store state with a live EC2 session and a persisted config. -/
def connectedState : StoreState :=
  { initialState with
    isConnected := true
    storageType := some StorageType.ec2
    savedConfig := some (ConnectionConfig.ec2 sampleEc2Config)
    rootPath := "/home/ubuntu"
    currentPath := "/home/ubuntu"
    files := [sampleFile]
    localStore := some (ConnectionConfig.ec2 sampleEc2Config) }

/-- Concrete legacy config for the root-resolution scenario. -/
def legacyUbuntuConfig : LegacyConnectionConfig where
  host := "192.168.1.1"
  username := "ubuntu"
  pemContent := "RAW-PEM-KEY-MATERIAL"
  port := 22

/-- Successful legacy backend response. -/
def legacyOkResponse : LegacyConnectResponse where
  success := true
  message := "Connected"

end Image

namespace Image

/-- C10: when the backend listing of loadFiles(p) throws, the previously
loaded file list is unchanged, the error field holds the failure message,
isLoadingFiles is false after the call, and currentPath has already been
moved to the requested path p. -/
theorem c10_loadFiles_failure_frame (s : StoreState) (p e : String) :
    (loadFiles s p (Except.error e)).files = s.files ∧
    (loadFiles s p (Except.error e)).error = some e ∧
    (loadFiles s p (Except.error e)).isLoadingFiles = false ∧
    (loadFiles s p (Except.error e)).currentPath = p := by
  simp [loadFiles]

/-- C9: with the media-only filter on, filteredFiles holds exactly the
directories, the files whose mimeType starts with image/, and the files
whose mimeType is exactly the bare string video; with the filter off it is
the full list. Concretely a video/mp4 file is excluded even though the
lazy media card's isVideo classifies it as a video via the video/ prefix. -/
theorem c9_filteredFiles_spec (s : StoreState) (f : FileInfo) :
    (f ∈ filteredFiles { s with isMediaOnly := true } ↔
      f ∈ s.files ∧ (f.isDir = true ∨
        jsStartsWith (f.mimeType.getD ("")) ("image/") = true ∨
        f.mimeType.getD ("") = "video")) ∧
    filteredFiles { s with isMediaOnly := false } = s.files ∧
    filteredFiles { initialState with
      isMediaOnly := true
      files := [mp4File, bareVideoFile, dirEntry] } = [bareVideoFile, dirEntry] ∧
    isVideo mp4File = true := by
  refine ⟨?_, by simp [filteredFiles], by decide, by decide⟩
  cases hd : f.isDir <;>
    simp [filteredFiles, List.mem_filter, hd]

/-- C8: the lazy media card never issues a thumbnail request for a file not
classified as an image: whatever the card state and backend outcome,
loadThumbnail returns the state unchanged and reports that no invoke was
issued. -/
theorem c8_no_thumbnail_for_non_image (file : FileInfo) (c : CardState)
    (out : Except String String) (h : isImage file = false) :
    loadThumbnail file c out = (c, false) := by
  simp [loadThumbnail, h]

/-- C8 witness: instantiated at a video/mp4 file with the initial card
state. -/
theorem c8_no_thumbnail_for_non_image_witness :
    isImage mp4File = false ∧
    loadThumbnail mp4File initialCardState (Except.ok ("data")) =
      (initialCardState, false) :=
  ⟨by decide,
   c8_no_thumbnail_for_non_image mp4File initialCardState (Except.ok ("data"))
     (by decide)⟩

/-- C7: thumbnail loading is idempotent per path: a first successful load
stores the data URL and marks the thumbnail loaded, and every later call on
that state returns the identical state (byte-identical thumbnailUrl) while
issuing no further backend invoke. -/
theorem c7_thumbnail_idempotent (file : FileInfo) (c : CardState) (u : String)
    (later : Except String String)
    (himg : isImage file = true) (hnot : c.thumbnailLoaded = false) :
    (loadThumbnail file c (Except.ok u)).1.thumbnailUrl = u ∧
    (loadThumbnail file c (Except.ok u)).1.thumbnailLoaded = true ∧
    loadThumbnail file (loadThumbnail file c (Except.ok u)).1 later =
      ((loadThumbnail file c (Except.ok u)).1, false) := by
  simp [loadThumbnail, himg, hnot]

/-- C7 witness: instantiated at the JPEG entry and the initial card state. -/
theorem c7_thumbnail_idempotent_witness :
    isImage sampleFile = true ∧
    initialCardState.thumbnailLoaded = false ∧
    ((loadThumbnail sampleFile initialCardState (Except.ok ("url-a"))).1.thumbnailUrl
        = "url-a" ∧
     (loadThumbnail sampleFile initialCardState (Except.ok ("url-a"))).1.thumbnailLoaded
        = true ∧
     loadThumbnail sampleFile
        (loadThumbnail sampleFile initialCardState (Except.ok ("url-a"))).1
        (Except.ok ("url-b")) =
      ((loadThumbnail sampleFile initialCardState (Except.ok ("url-a"))).1, false)) :=
  ⟨by decide, by decide,
   c7_thumbnail_idempotent sampleFile initialCardState ("url-a")
     (Except.ok ("url-b")) (by decide) (by decide)⟩

end Image

namespace Image

/-- C1 counterexample: a successful remote-filesystem connect persists the
entire supplied config under the image-connection localStorage key, and the
key material of that persisted entry is exactly the raw PEM content that was
supplied in the connect request. -/
theorem c1_counterexample :
    (connectEc2 initialState sampleEc2Config (Except.ok sampleOkResponse)
        (Except.ok [])).2.localStore.map configKeyMaterial =
      some ("RAW-PEM-KEY-MATERIAL") ∧
    sampleEc2Config.pemContent = "RAW-PEM-KEY-MATERIAL" := by
  constructor <;> rfl

/-- C1 (amended): for every connect call that succeeds, the value saved
under the localStorage connection key is the full supplied config, so it
contains the raw key material (pemContent / sshKeyContent) verbatim; the key
material therefore survives in persistent storage until the entry is
removed. -/
theorem c1_key_material_persisted (s : StoreState) (ce : Ec2ConnectionConfig)
    (cg : GitHubConnectionConfig) (r : ConnectResponse)
    (lo : Except String (List FileInfo)) (hsucc : r.success = true) :
    (connectEc2 s ce (Except.ok r) lo).2.localStore.map configKeyMaterial =
      some ce.pemContent ∧
    (connectGithub s cg (Except.ok r) lo).2.localStore.map configKeyMaterial =
      some cg.sshKeyContent := by
  cases lo <;> simp [connectEc2, connectGithub, loadFiles, hsucc, configKeyMaterial]

/-- C1 witness: the amended claim at a concrete connect request. -/
theorem c1_key_material_persisted_witness :
    sampleOkResponse.success = true ∧
    ((connectEc2 initialState sampleEc2Config (Except.ok sampleOkResponse)
        (Except.ok [])).2.localStore.map configKeyMaterial =
      some sampleEc2Config.pemContent ∧
    (connectGithub initialState sampleGithubConfig (Except.ok sampleOkResponse)
        (Except.ok [])).2.localStore.map configKeyMaterial =
      some sampleGithubConfig.sshKeyContent) :=
  ⟨by decide,
   c1_key_material_persisted initialState sampleEc2Config sampleGithubConfig
     sampleOkResponse (Except.ok []) (by decide)⟩

/-- C2: every failing connect call rolls the session back fully. Whether the
backend reports success=false or the invoke throws, for both backend kinds:
the call returns false, the store stays disconnected, savedConfig,
storageType, rootPath, files, currentPath and the localStorage entry are
untouched, isConnecting is false after the call, and only the error field
is set (to the response message or to the stringified thrown error). -/
theorem c2_connect_failure_rollback (s : StoreState) (ce : Ec2ConnectionConfig)
    (cg : GitHubConnectionConfig) (r : ConnectResponse) (e : String)
    (lo : Except String (List FileInfo))
    (hconn : s.isConnected = false) (hfail : r.success = false) :
    failureRollback s (connectEc2 s ce (Except.ok r) lo) r.message ∧
    failureRollback s (connectEc2 s ce (Except.error e) lo) e ∧
    failureRollback s (connectGithub s cg (Except.ok r) lo) r.message ∧
    failureRollback s (connectGithub s cg (Except.error e) lo) e := by
  refine ⟨?_, ?_, ?_, ?_⟩ <;>
    simp [failureRollback, connectEc2, connectGithub, hconn, hfail]

/-- C2 witness: both failure modes at a concrete disconnected state. -/
theorem c2_connect_failure_rollback_witness :
    initialState.isConnected = false ∧
    failResponse.success = false ∧
    (failureRollback initialState
        (connectEc2 initialState sampleEc2Config (Except.ok failResponse)
          (Except.ok [])) failResponse.message ∧
     failureRollback initialState
        (connectEc2 initialState sampleEc2Config (Except.error ("boom"))
          (Except.ok [])) ("boom") ∧
     failureRollback initialState
        (connectGithub initialState sampleGithubConfig (Except.ok failResponse)
          (Except.ok [])) failResponse.message ∧
     failureRollback initialState
        (connectGithub initialState sampleGithubConfig (Except.error ("boom"))
          (Except.ok [])) ("boom")) :=
  ⟨by decide, by decide,
   c2_connect_failure_rollback initialState sampleEc2Config sampleGithubConfig
     failResponse ("boom") (Except.ok []) (by decide) (by decide)⟩

/-- C3: every connect call whose backend response reports success with a
(nonempty) root path returns true and leaves the store connected with the
requested backend kind, the supplied config, and rootPath equal to the
backend-reported root; currentPath equals that root as well because the
first list_files call is issued against it, whatever that listing then
returns. -/
theorem c3_connect_success (s : StoreState) (ce : Ec2ConnectionConfig)
    (cg : GitHubConnectionConfig) (r : ConnectResponse) (root : String)
    (lo : Except String (List FileInfo))
    (hsucc : r.success = true) (hroot : r.root_path = some root)
    (hne : root ≠ "") :
    successEstablish (ConnectionConfig.ec2 ce) StorageType.ec2 root
      (connectEc2 s ce (Except.ok r) lo) ∧
    successEstablish (ConnectionConfig.github cg) StorageType.github root
      (connectGithub s cg (Except.ok r) lo) := by
  cases lo <;>
    simp [successEstablish, connectEc2, connectGithub, loadFiles, orFalsy,
      hsucc, hroot, hne]

/-- C3 witness: a concrete successful connect reporting /home/ubuntu. -/
theorem c3_connect_success_witness :
    sampleOkResponse.success = true ∧
    sampleOkResponse.root_path = some ("/home/ubuntu") ∧
    ("/home/ubuntu" : String) ≠ "" ∧
    (successEstablish (ConnectionConfig.ec2 sampleEc2Config) StorageType.ec2
        ("/home/ubuntu")
        (connectEc2 initialState sampleEc2Config (Except.ok sampleOkResponse)
          (Except.ok [sampleFile])) ∧
     successEstablish (ConnectionConfig.github sampleGithubConfig)
        StorageType.github ("/home/ubuntu")
        (connectGithub initialState sampleGithubConfig
          (Except.ok sampleOkResponse) (Except.ok [sampleFile]))) :=
  ⟨by decide, by decide, by decide,
   c3_connect_success initialState sampleEc2Config sampleGithubConfig
     sampleOkResponse ("/home/ubuntu") (Except.ok [sampleFile])
     (by decide) (by decide) (by decide)⟩

/-- C4 counterexample: when the backend disconnect invocation throws, the
disconnect call completes (the error is only logged) but nothing is cleared:
from a live session the store is left exactly as it was, still connected,
with its files and its persisted localStorage entry. -/
theorem c4_counterexample :
    disconnect connectedState (Except.error ("io failure")) = connectedState ∧
    connectedState.isConnected = true ∧
    connectedState.files ≠ [] ∧
    connectedState.storageType ≠ none ∧
    connectedState.localStore ≠ none := by
  refine ⟨rfl, rfl, by decide, by decide, by decide⟩

/-- C4 (amended): disconnect never throws to the caller, and whenever the
backend disconnect invocation succeeds it clears the session (isConnected
false, empty file list, storageType cleared, persisted entry removed,
currentPath reset) and is idempotent, also from a state with no active
session; but when the backend invocation throws, the call returns with every
piece of state, including the persisted config, left unchanged. -/
theorem c4_disconnect_clears_when_backend_succeeds (s : StoreState) (e : String) :
    (disconnect s (Except.ok ())).isConnected = false ∧
    (disconnect s (Except.ok ())).files = [] ∧
    (disconnect s (Except.ok ())).storageType = none ∧
    (disconnect s (Except.ok ())).localStore = none ∧
    (disconnect s (Except.ok ())).currentPath = "/" ∧
    disconnect (disconnect s (Except.ok ())) (Except.ok ()) =
      disconnect s (Except.ok ()) ∧
    disconnect s (Except.error e) = s := by
  simp [disconnect]

/-- C5 counterexample: a successful remote-filesystem connect as user ubuntu
whose response carries no root path resolves the root (and the initially
browsed path) to /, not to /home/ubuntu. -/
theorem c5_counterexample :
    sampleEc2Config.username = "ubuntu" ∧
    sampleNoRootResponse.root_path = none ∧
    (connectEc2 initialState sampleEc2Config (Except.ok sampleNoRootResponse)
        (Except.ok [])).2.rootPath = "/" ∧
    (connectEc2 initialState sampleEc2Config (Except.ok sampleNoRootResponse)
        (Except.ok [])).2.currentPath = "/" ∧
    ("/" : String) ≠ "/home/ubuntu" := by
  refine ⟨rfl, rfl, rfl, rfl, by decide⟩

/-- C5 (amended): in the current store, a successful remote-filesystem
connect whose response reports no root path falls back to / as the root and
as the initially browsed path; the username-derived home fallback exists
only in the legacy store, whose connect always begins browsing at /root for
user root and /home/username otherwise, regardless of the response. -/
theorem c5_root_fallback (s : StoreState) (ce : Ec2ConnectionConfig)
    (r : ConnectResponse) (lo : Except String (List FileInfo))
    (ls : LegacyStoreState) (lc : LegacyConnectionConfig)
    (lr : LegacyConnectResponse) (llo : Except String (List FileInfo))
    (hsucc : r.success = true) (hroot : r.root_path = none)
    (hlsucc : lr.success = true) :
    (connectEc2 s ce (Except.ok r) lo).2.rootPath = "/" ∧
    (connectEc2 s ce (Except.ok r) lo).2.currentPath = "/" ∧
    (legacyConnect ls lc (Except.ok lr) llo).2.currentPath =
      (if lc.username = "root" then "/root" else "/home/" ++ lc.username) := by
  refine ⟨?_, ?_, ?_⟩ <;>
    cases lo <;> cases llo <;>
      simp [connectEc2, legacyConnect, loadFiles, legacyLoadFiles, orFalsy,
        hsucc, hroot, hlsucc]

/-- C5 witness: the amended claim at the concrete ubuntu configs. -/
theorem c5_root_fallback_witness :
    sampleNoRootResponse.success = true ∧
    sampleNoRootResponse.root_path = none ∧
    legacyOkResponse.success = true ∧
    ((connectEc2 initialState sampleEc2Config (Except.ok sampleNoRootResponse)
        (Except.ok [])).2.rootPath = "/" ∧
     (connectEc2 initialState sampleEc2Config (Except.ok sampleNoRootResponse)
        (Except.ok [])).2.currentPath = "/" ∧
     (legacyConnect legacyInitialState legacyUbuntuConfig
        (Except.ok legacyOkResponse) (Except.ok [])).2.currentPath =
      (if legacyUbuntuConfig.username = "root" then "/root"
       else "/home/" ++ legacyUbuntuConfig.username)) :=
  ⟨by decide, by decide, by decide,
   c5_root_fallback initialState sampleEc2Config sampleNoRootResponse
     (Except.ok []) legacyInitialState legacyUbuntuConfig legacyOkResponse
     (Except.ok []) (by decide) (by decide) (by decide)⟩

/-- C6: the store state holds a single optional connection (one storageType,
one savedConfig, one rootPath, one persisted entry), so at most one session
exists after any operation sequence; and a successful connect issued while
already connected overwrites each of those components, and the persisted
localStorage entry, with values determined solely by the new request and
response, leaving no trace of the prior session in them. -/
theorem c6_single_session_replace (s : StoreState) (ce : Ec2ConnectionConfig)
    (cg : GitHubConnectionConfig) (r : ConnectResponse)
    (lo : Except String (List FileInfo))
    (hconn : s.isConnected = true) (hsucc : r.success = true) :
    ((connectEc2 s ce (Except.ok r) lo).2.storageType = some StorageType.ec2 ∧
     (connectEc2 s ce (Except.ok r) lo).2.savedConfig =
        some (ConnectionConfig.ec2 ce) ∧
     (connectEc2 s ce (Except.ok r) lo).2.localStore =
        some (ConnectionConfig.ec2 ce) ∧
     (connectEc2 s ce (Except.ok r) lo).2.rootPath =
        orFalsy r.root_path ("/")) ∧
    ((connectGithub s cg (Except.ok r) lo).2.storageType =
        some StorageType.github ∧
     (connectGithub s cg (Except.ok r) lo).2.savedConfig =
        some (ConnectionConfig.github cg) ∧
     (connectGithub s cg (Except.ok r) lo).2.localStore =
        some (ConnectionConfig.github cg) ∧
     (connectGithub s cg (Except.ok r) lo).2.rootPath =
        orFalsy r.root_path ("/")) := by
  cases lo <;> simp [connectEc2, connectGithub, loadFiles, hsucc]

/-- C6 witness: a successful GitHub connect replacing a live EC2 session. -/
theorem c6_single_session_replace_witness :
    connectedState.isConnected = true ∧
    sampleOkResponse.success = true ∧
    (((connectEc2 connectedState sampleEc2Config (Except.ok sampleOkResponse)
        (Except.ok [])).2.storageType = some StorageType.ec2 ∧
      (connectEc2 connectedState sampleEc2Config (Except.ok sampleOkResponse)
        (Except.ok [])).2.savedConfig = some (ConnectionConfig.ec2 sampleEc2Config) ∧
      (connectEc2 connectedState sampleEc2Config (Except.ok sampleOkResponse)
        (Except.ok [])).2.localStore = some (ConnectionConfig.ec2 sampleEc2Config) ∧
      (connectEc2 connectedState sampleEc2Config (Except.ok sampleOkResponse)
        (Except.ok [])).2.rootPath = orFalsy sampleOkResponse.root_path ("/")) ∧
     ((connectGithub connectedState sampleGithubConfig (Except.ok sampleOkResponse)
        (Except.ok [])).2.storageType = some StorageType.github ∧
      (connectGithub connectedState sampleGithubConfig (Except.ok sampleOkResponse)
        (Except.ok [])).2.savedConfig =
          some (ConnectionConfig.github sampleGithubConfig) ∧
      (connectGithub connectedState sampleGithubConfig (Except.ok sampleOkResponse)
        (Except.ok [])).2.localStore =
          some (ConnectionConfig.github sampleGithubConfig) ∧
      (connectGithub connectedState sampleGithubConfig (Except.ok sampleOkResponse)
        (Except.ok [])).2.rootPath = orFalsy sampleOkResponse.root_path ("/"))) :=
  ⟨by decide, by decide,
   c6_single_session_replace connectedState sampleEc2Config sampleGithubConfig
     sampleOkResponse (Except.ok []) (by decide) (by decide)⟩

end Image
